import Mathlib

/-!
Verification development for the Gemchain-PriceFetcher repository
(`src/main.py`, `src/config.py`, `src/scheduler.py`).

The pipeline in `src/main.py` is embedded shallowly:
* JSON values returned by the two HTTP price APIs are modelled by the `Json`
  inductive type; Python `None` and JSON `null` both map to `Json.null`.
* Python dictionary/sequence primitives used by the code (`dict.get`,
  truthiness, `len`, iteration, indexing) are modelled by `py*` helpers that
  return `Except PyErr _`; a `.error` value models an uncaught Python
  exception escaping the function under scrutiny.
* Network effects are modelled by oracle parameters: a source client takes
  the decoded response body as `Option Json` (`none` = a
  `requests.exceptions.RequestException`, which the code catches), and the
  run-level functions take per-token fetch and persistence oracles.
* `random.uniform(-10, 10)` draws are modelled by rational parameters
  supplied by an `rng` stream; `round(x, 2)` is modelled by `pyRound2`
  (round half to even at two decimals, as Python's `round` does).
* The `time.sleep` rate-limit delays and all `print` calls are effect-free
  for the data flow and are not modelled.
-/

set_option linter.unusedVariables false

/-- A JSON value as decoded by `response.json()`.  `null` also stands for
Python `None`. Objects keep their key order as an association list. -/
inductive Json where
  | null : Json
  | bool : Bool → Json
  | num : Rat → Json
  | str : String → Json
  | arr : List Json → Json
  | obj : List (String × Json) → Json

/-- Python exceptions that the code under scrutiny can raise and does not
catch (`requests.exceptions.RequestException` is caught and therefore
modelled separately, by an absent response body). -/
inductive PyErr where
  | attributeError : PyErr
  | typeError : PyErr
  | keyError : PyErr
  | indexError : PyErr
  | overflowError : PyErr
deriving DecidableEq

/-- First binding of a key in a Python dict (modelled as an assoc list). -/
def jLookup : List (String × Json) → String → Option Json
  | [], _ => none
  | (k, v) :: rest, key => if k = key then some v else jLookup rest key

/-- `d.get(key)`: `None` when the key is absent; `AttributeError` when the
receiver is not a dict. -/
def pyGet : Json → String → Except PyErr Json
  | Json.obj kvs, k => Except.ok ((jLookup kvs k).getD Json.null)
  | _, _ => Except.error PyErr.attributeError

/-- `d.get(key, default)`: the default applies only when the key is absent
(a key bound to `null` is returned as `null`, not defaulted). -/
def pyGetD : Json → String → Json → Except PyErr Json
  | Json.obj kvs, k, d => Except.ok ((jLookup kvs k).getD d)
  | _, _, _ => Except.error PyErr.attributeError

/-- Python truthiness of a decoded JSON value. -/
def pyTruthy : Json → Bool
  | Json.null => false
  | Json.bool b => b
  | Json.num q => q != 0
  | Json.str s => s != ""
  | Json.arr xs => !xs.isEmpty
  | Json.obj kvs => !kvs.isEmpty

/-- `len(x)`: defined for strings, lists and dicts, `TypeError` otherwise. -/
def pyLen : Json → Except PyErr Nat
  | Json.str s => Except.ok s.length
  | Json.arr xs => Except.ok xs.length
  | Json.obj kvs => Except.ok kvs.length
  | _ => Except.error PyErr.typeError

/-- `for x in v`: lists yield elements, strings yield one-character strings,
dicts yield their keys; other values raise `TypeError`. -/
def pyIterList : Json → Except PyErr (List Json)
  | Json.arr xs => Except.ok xs
  | Json.str s => Except.ok (s.toList.map (fun c => Json.str (String.mk [c])))
  | Json.obj kvs => Except.ok (kvs.map (fun kv => Json.str kv.1))
  | _ => Except.error PyErr.typeError

/-- `v[0]`: list/str indexing; a dict subscripted with `0` raises `KeyError`
(no integer keys occur in these APIs); others raise `TypeError`. -/
def pyIndex0 : Json → Except PyErr Json
  | Json.arr (x :: _) => Except.ok x
  | Json.arr [] => Except.error PyErr.indexError
  | Json.str s =>
      match s.toList with
      | c :: _ => Except.ok (Json.str (String.mk [c]))
      | [] => Except.error PyErr.indexError
  | Json.obj _ => Except.error PyErr.keyError
  | _ => Except.error PyErr.typeError

/-- Python `==` between a decoded JSON value and a `str` constant. -/
def pyEqStr (v : Json) (s : String) : Bool :=
  match v with
  | Json.str t => t == s
  | _ => false

/-- `Except.ok`-ness, used to state that no exception escaped. -/
def exceptIsOk {α : Type} : Except PyErr α → Bool
  | Except.ok _ => true
  | Except.error _ => false

/-! ### The ASCII grammar accepted by Python's `float()` builtin

`float(s)` strips surrounding whitespace and then accepts an optionally
signed decimal literal (`digits`, `digits.digits`, `digits.`, `.digits`,
each with an optional exponent part) or `inf`/`infinity`/`nan`
case-insensitively.  Underscores are allowed strictly between digits.
(The model covers the ASCII fragment; exotic Unicode digit forms accepted
by CPython do not occur in these APIs.) -/

def isPyDigitChar (c : Char) : Bool := '0' ≤ c && c ≤ '9'

def isPySpaceChar (c : Char) : Bool :=
  c = ' ' || c = '\t' || c = '\n' || c = '\r' || c = '\x0b' || c = '\x0c'

/-- After a leading digit: `('_' digit | digit)*`. -/
def pyDigitsRest : List Char → Bool
  | [] => true
  | '_' :: c :: rest => isPyDigitChar c && pyDigitsRest rest
  | ['_'] => false
  | c :: rest => isPyDigitChar c && pyDigitsRest rest

/-- A non-empty digit run with underscores only between digits. -/
def pyDigitGroup : List Char → Bool
  | [] => false
  | c :: rest => isPyDigitChar c && pyDigitsRest rest

/-- Split at the first `.`; the second component is `none` when absent. -/
def pySplitDot : List Char → List Char × Option (List Char)
  | [] => ([], none)
  | '.' :: rest => ([], some rest)
  | c :: rest =>
      let p := pySplitDot rest
      (c :: p.1, p.2)

/-- Split at the first `e`/`E`; the second component is `none` when absent. -/
def pySplitExp : List Char → List Char × Option (List Char)
  | [] => ([], none)
  | c :: rest =>
      if c = 'e' || c = 'E' then ([], some rest)
      else
        let p := pySplitExp rest
        (c :: p.1, p.2)

def pyDropSign : List Char → List Char
  | '+' :: rest => rest
  | '-' :: rest => rest
  | cs => cs

def pyMantissaOk (cs : List Char) : Bool :=
  match pySplitDot cs with
  | (intPart, none) => pyDigitGroup intPart
  | (intPart, some fracPart) =>
      if intPart.isEmpty then pyDigitGroup fracPart
      else pyDigitGroup intPart && (fracPart.isEmpty || pyDigitGroup fracPart)

def pyExpOk : Option (List Char) → Bool
  | none => true
  | some cs => pyDigitGroup (pyDropSign cs)

def pyIsInfNan (cs : List Char) : Bool :=
  let l := cs.map Char.toLower
  l == ['i', 'n', 'f'] || l == ['i', 'n', 'f', 'i', 'n', 'i', 't', 'y'] ||
    l == ['n', 'a', 'n']

/-- Whether `float(s)` succeeds on the string `s`. -/
def pyFloatParses (s : String) : Bool :=
  let cs := s.toList.dropWhile isPySpaceChar
  let cs := (cs.reverse.dropWhile isPySpaceChar).reverse
  let body := pyDropSign cs
  if pyIsInfNan body then true
  else
    let p := pySplitExp body
    pyMantissaOk p.1 && pyExpOk p.2

/-- Whether `float(x)` returns a value on a decoded JSON value whose
conversion does not overflow: numbers and booleans convert; strings
convert iff they parse (string conversion yields an infinity rather than
raising on overflow); `None`, lists and dicts raise `TypeError`, which
the code catches together with `ValueError`.  The uncaught
`OverflowError` path of `float` on huge integers is modelled separately
by `floatOverflows`. -/
def pyFloatOk : Json → Bool
  | Json.num _ => true
  | Json.bool _ => true
  | Json.str s => pyFloatParses s
  | _ => false

/-- Whether `float(x)` raises an uncaught `OverflowError`.  A huge
integral JSON number decodes to an arbitrary-precision Python `int`, and
CPython's `float(int)` rounds half to even at the binary64 boundary, so
it overflows exactly when the magnitude is at least `2^1024 - 2^970`;
the `except (ValueError, TypeError)` clause at `src/main.py:200` does
not catch it.  String conversion never overflows, a JSON decimal literal
decodes to a Python float on which `float` is the identity, and the
remaining values raise the caught `TypeError`.  (The model represents a
JSON number as an exact rational and takes integral values to be Python
ints; a decimal literal of that magnitude would decode to an IEEE
infinity, which the model does not represent.) -/
def floatOverflows : Json → Bool
  | Json.num q =>
      q.den == 1 &&
        ((((2 ^ 1024 - 2 ^ 970 : Nat) : Int) : Rat) ≤ q ||
          q ≤ -(((2 ^ 1024 - 2 ^ 970 : Nat) : Int) : Rat))
  | _ => false

/-- Round half to even to the nearest integer. -/
def roundHalfEvenInt (x : Rat) : Int :=
  let f : Int := ⌊x⌋
  if x - (f : Rat) < 1 / 2 then f
  else if 1 / 2 < x - (f : Rat) then f + 1
  else if f % 2 = 0 then f else f + 1

/-- Python's `round(q, 2)`: scale by 100, round half to even, scale back. -/
def pyRound2 (q : Rat) : Rat :=
  (roundHalfEvenInt (q * 100) : Rat) / 100

/-! ### Data model -/

/-- The price-change record produced by the source clients and consumed by
`update_token_in_supabase` (a Python dict with these four keys; it is
non-empty and hence always truthy). Numeric fields keep the raw decoded
JSON values; `Json.null` is the absent value. -/
structure PriceData where
  price_1h_change : Json
  price_24h_change : Json
  current_price : Json
  source : String

/-- A token row as read from the `tokens` table.  Each field models
`row.get(key)`: `none` when the key is missing. -/
structure Token where
  id : Option String
  name : Option String
  contract_address : Option String
  chain : Option String
  status : Option String
  token_type : Option String

/-- An entry of the `FAILED_TOKENS_DEXSCREENER` queue (the dict appended at
`src/main.py:265`), which also carries exactly the four arguments passed to
the source clients. -/
structure FailedToken where
  token_id : Option String
  token_name : String
  contract_address : Option String
  chain : String
deriving DecidableEq

/-- The locals extracted from a token row in the tier-1 loop
(`src/main.py:254-257`): `id` and `contract_address` via plain `get`,
`chain` defaulting to `"ethereum"`, `name` defaulting to `"Unknown"`. -/
def mkFailedToken (t : Token) : FailedToken :=
  { token_id := t.id
    token_name := t.name.getD "Unknown"
    contract_address := t.contract_address
    chain := t.chain.getD "ethereum" }

/-- The pool dict built by `get_pool_address_from_geckoterminal`
(`src/main.py:106-114`). -/
structure PoolInfo where
  token_id : Option String
  token_name : String
  contract_address : Option String
  chain : String
  price : Json
  price_1h_change : Json
  price_24h_change : Json

/-- The update payload assembled by `update_token_in_supabase`
(`src/main.py:220-229`): `updated_at` is always set, the three numeric
fields only when present in the `PriceData`. -/
structure UpdatePayload where
  updated_at : Bool
  price_1h_change : Option Json
  price_24h_change : Option Json
  current_price : Option Json

def isNull : Json → Bool
  | Json.null => true
  | _ => false

/-! ### Chain-name resolution tables -/

/-- `get_chain_name_for_geckoterminal` (`src/main.py:65-78`): static map
applied to the lower-cased chain, unrecognized chains pass through
lower-cased. -/
def get_chain_name_for_geckoterminal (chain : String) : String :=
  let c := chain.toLower
  if c = "ethereum" then "ethereum"
  else if c = "bsc" then "bsc"
  else if c = "polygon" then "polygon-pos"
  else if c = "solana" then "solana"
  else if c = "avalanche" then "avalanche"
  else if c = "fantom" then "fantom"
  else if c = "arbitrum" then "arbitrum"
  else if c = "optimism" then "optimism"
  else if c = "base" then "base"
  else if c = "linea" then "linea"
  else c

/-- The `chain_map` lookup inside `fetch_price_data_from_dexscreener`
(`src/main.py:172-183`). -/
def dexChainMap (chain : String) : String :=
  let c := chain.toLower
  if c = "ethereum" then "ethereum"
  else if c = "bsc" then "bsc"
  else if c = "polygon" then "polygon"
  else if c = "solana" then "solana"
  else if c = "avalanche" then "avalanche"
  else if c = "fantom" then "fantom"
  else if c = "arbitrum" then "arbitrum"
  else if c = "optimism" then "optimism"
  else if c = "base" then "base"
  else c

/-! ### Primary source client (DexScreener) -/

/-- The `for pair in pairs` search (`src/main.py:185-189`): first record
whose `chainId` equals the resolved key; `AttributeError` as soon as a
traversed record is not a dict. -/
def findMatchingPair (dex_chain : String) : List Json → Except PyErr (Option Json)
  | [] => Except.ok none
  | p :: ps => do
      let cid ← pyGet p "chainId"
      if pyEqStr cid dex_chain then Except.ok (some p)
      else findMatchingPair dex_chain ps

/-- `pair = matching_pair if matching_pair else pairs[0]`
(`src/main.py:191`); `pairs` is the raw JSON value being indexed. -/
def dexSelectPair (dex_chain : String) (elems : List Json) (pairs : Json) :
    Except PyErr Json := do
  let matching ← findMatchingPair dex_chain elems
  match matching with
  | some p => if pyTruthy p then Except.ok p else pyIndex0 pairs
  | none => pyIndex0 pairs

/-- The caught-exception part of the `priceUsd` validation
(`src/main.py:197-201`): a truthy value is parsed by `float` purely as a
check and replaced by `None` when the parse raises `ValueError` or
`TypeError`; a falsy value (including the empty string) is left
untouched. -/
def normalizeCurrentPrice (cp : Json) : Json :=
  if pyTruthy cp then (if pyFloatOk cp then cp else Json.null) else cp

/-- The full `priceUsd` validation including its uncaught error path: a
truthy value whose `float` conversion overflows raises an uncaught
`OverflowError`; otherwise the caught-exception normalization
`normalizeCurrentPrice` applies. -/
def validateCurrentPrice (cp : Json) : Except PyErr Json :=
  if pyTruthy cp && floatOverflows cp then Except.error PyErr.overflowError
  else Except.ok (normalizeCurrentPrice cp)

/-- Body of `fetch_price_data_from_dexscreener` after a successful HTTP
round-trip (`src/main.py:170-211`), on the decoded body `data`. -/
def dexParseResponse (chain : String) (data : Json) :
    Except PyErr (Option PriceData) := do
  let pairs ← pyGet data "pairs"
  if pyTruthy pairs then do
    let n ← pyLen pairs
    if 0 < n then do
      let dex_chain := dexChainMap chain
      let elems ← pyIterList pairs
      let pair ← dexSelectPair dex_chain elems pairs
      let priceChange1 ← pyGetD pair "priceChange" (Json.obj [])
      let price_1h_change ← pyGet priceChange1 "h1"
      let priceChange2 ← pyGetD pair "priceChange" (Json.obj [])
      let price_24h_change ← pyGet priceChange2 "h24"
      let current_price ← pyGet pair "priceUsd"
      let current_price ← validateCurrentPrice current_price
      Except.ok (some
        { price_1h_change := price_1h_change
          price_24h_change := price_24h_change
          current_price := current_price
          source := "dexscreener" })
    else Except.ok none
  else Except.ok none

/-- `fetch_price_data_from_dexscreener` (`src/main.py:159-216`).  `resp` is
the decoded response body; `none` models a `RequestException` (raised by
`requests.get`, `raise_for_status` or `response.json()`), which the
`except` clause turns into a `None` return.  An `Except.error` result
models any other exception escaping the function uncaught. -/
def fetch_price_data_from_dexscreener (token_id : Option String)
    (token_name : String) (contract_address : Option String) (chain : String)
    (resp : Option Json) : Except PyErr (Option PriceData) :=
  match resp with
  | none => Except.ok none
  | some data => dexParseResponse chain data

/-! ### Secondary source client (GeckoTerminal) -/

/-- `get_pool_address_from_geckoterminal` (`src/main.py:80-118`), with the
same response-oracle convention as the primary client. -/
def get_pool_address_from_geckoterminal (token_id : Option String)
    (token_name : String) (contract_address : Option String) (chain : String)
    (resp : Option Json) : Except PyErr (Option PoolInfo) :=
  match resp with
  | none => Except.ok none
  | some data => do
      let pools ← pyGetD data "data" (Json.arr [])
      if pyTruthy pools then do
        let pool ← pyIndex0 pools
        let attributes ← pyGetD pool "attributes" (Json.obj [])
        let price ← pyGet attributes "base_token_price_usd"
        let price_change ← pyGetD attributes "price_change_percentage" (Json.obj [])
        let price_1h_change ← pyGet price_change "h1"
        let price_24h_change ← pyGet price_change "h24"
        Except.ok (some
          { token_id := token_id
            token_name := token_name
            contract_address := contract_address
            chain := chain
            price := price
            price_1h_change := price_1h_change
            price_24h_change := price_24h_change })
      else Except.ok none

/-- `get_price_from_geckoterminal` (`src/main.py:120-129`).  The `if not
token_info` guard fires exactly on an absent pool record: a present
`PoolInfo` is a seven-key dict and always truthy. -/
def get_price_from_geckoterminal (token_info : Option PoolInfo) : Option PriceData :=
  match token_info with
  | none => none
  | some ti => some
      { price_1h_change := ti.price_1h_change
        price_24h_change := ti.price_24h_change
        current_price := ti.price
        source := "geckoterminal" }

/-- `generate_random_price_changes` (`src/main.py:131-137`); `r1`, `r2` are
the two `random.uniform(-10, 10)` draws supplied by the RNG stream. -/
def generate_random_price_changes (r1 r2 : Rat) : PriceData :=
  { price_1h_change := Json.num (pyRound2 r1)
    price_24h_change := Json.num (pyRound2 r2)
    current_price := Json.null
    source := "fallback_random" }

/-! ### Persistence -/

def mkPayload (pd : PriceData) : UpdatePayload :=
  { updated_at := true
    price_1h_change :=
      if isNull pd.price_1h_change then none else some pd.price_1h_change
    price_24h_change :=
      if isNull pd.price_24h_change then none else some pd.price_24h_change
    current_price :=
      if isNull pd.current_price then none else some pd.current_price }

/-- `len(update_payload)`: the always-present `updated_at` key plus the
numeric keys that were set. -/
def payloadLen (p : UpdatePayload) : Nat :=
  (if p.updated_at then 1 else 0) +
    (if p.price_1h_change.isSome then 1 else 0) +
    (if p.price_24h_change.isSome then 1 else 0) +
    (if p.current_price.isSome then 1 else 0)

/-- `update_token_in_supabase` (`src/main.py:218-240`).  `dbOk` is the
oracle for whether the issued `update(...).execute()` call succeeds (any
exception is caught and turned into a `False` return).  The second
component records the payload of the issued write, `none` when the
`len(update_payload) > 1` guard suppressed the write. -/
def update_token_in_supabase (dbOk : Bool) (price_data : PriceData) :
    Bool × Option UpdatePayload :=
  let update_payload := mkPayload price_data
  if 1 < payloadLen update_payload then (dbOk, some update_payload)
  else (false, none)

/-! ### Batch partitioning

`for i in range(0, total, size): batch = items[i:i+size]`
(`src/main.py:247-248` and `293-294`) enumerates exactly the consecutive
chunks `items.take size`, `(items.drop size).take size`, ... -/

def chunkList (size : Nat) (items : List α) : List (List α) :=
  if h : items.isEmpty || size = 0 then []
  else
    items.take size :: chunkList size (items.drop size)
termination_by items.length
decreasing_by
  simp only [Bool.or_eq_true, decide_eq_true_eq, List.isEmpty_iff] at h
  push_neg at h
  have hlen : 0 < items.length := List.length_pos.mpr h.1
  simpa [List.length_drop] using Nat.sub_lt hlen (Nat.pos_of_ne_zero h.2)

/-- Configured batch size of the primary tier (`src/main.py:22`). -/
def BATCH_SIZE : Nat := 10

/-- Configured batch size of the fallback tier (`src/main.py:26`). -/
def GECKO_BATCH_SIZE : Nat := 2

/-! ### Tier 1: primary fetch over all eligible tokens -/

/-- Accumulator of `process_tokens_in_batches`: the two counters, the
`FAILED_TOKENS_DEXSCREENER` queue, plus the observable traces of fetch
invocations and issued persistence writes. -/
structure Acc1 where
  succ : Nat
  fail : Nat
  queue : List FailedToken
  calls : List FailedToken
  writes : List UpdatePayload

/-- One iteration of the tier-1 token loop (`src/main.py:253-277`).
`fetch1` is the outcome oracle for `fetch_price_data_from_dexscreener` on
the four extracted arguments; `db1` the success oracle for the persistence
call. -/
def tier1Step (fetch1 : FailedToken → Option PriceData)
    (db1 : FailedToken → PriceData → Bool) (acc : Acc1) (t : Token) : Acc1 :=
  let ft := mkFailedToken t
  let acc := { acc with calls := acc.calls ++ [ft] }
  match fetch1 ft with
  | none => { acc with queue := acc.queue ++ [ft] }
  | some price_data =>
      let r := update_token_in_supabase (db1 ft price_data) price_data
      let acc := { acc with writes := acc.writes ++ r.2.toList }
      if r.1 then { acc with succ := acc.succ + 1 }
      else { acc with fail := acc.fail + 1 }

/-- `process_tokens_in_batches` (`src/main.py:242-286`): the batched
double loop over the token list. -/
def process_tokens_in_batches (fetch1 : FailedToken → Option PriceData)
    (db1 : FailedToken → PriceData → Bool) (tokens : List Token) : Acc1 :=
  (chunkList BATCH_SIZE tokens).foldl
    (fun acc batch => batch.foldl (tier1Step fetch1 db1) acc)
    { succ := 0, fail := 0, queue := [], calls := [], writes := [] }

/-! ### Tier 2: fallback over the failed queue -/

/-- The fallback resolution for one queued token (`src/main.py:308-314`):
try the secondary source; when it yields no pool, synthesize a random
placeholder from the next two RNG draws. -/
def resolveFallback (fetch2 : FailedToken → Option PoolInfo) (r1 r2 : Rat)
    (ft : FailedToken) : Option PriceData :=
  match fetch2 ft with
  | some pool_info => get_price_from_geckoterminal (some pool_info)
  | none => some (generate_random_price_changes r1 r2)

/-- Accumulator of `process_failed_tokens_in_batches`; `draws` counts the
RNG pairs consumed so far. -/
structure Acc2 where
  succ : Nat
  fail : Nat
  draws : Nat
  calls : List FailedToken
  writes : List UpdatePayload

/-- One iteration of the tier-2 token loop (`src/main.py:299-324`).
`fetch2` is the outcome oracle for `get_pool_address_from_geckoterminal`,
`rng` the stream of `random.uniform(-10, 10)` pairs, `db2` the persistence
success oracle.  The `if price_data` guard is part of the source; its
`else` branch is unreachable because `resolveFallback` is total. -/
def tier2Step (fetch2 : FailedToken → Option PoolInfo) (rng : Nat → Rat × Rat)
    (db2 : FailedToken → PriceData → Bool) (acc : Acc2) (ft : FailedToken) : Acc2 :=
  let pool_info := fetch2 ft
  let price_data := resolveFallback fetch2 (rng acc.draws).1 (rng acc.draws).2 ft
  let draws := if (fetch2 ft).isNone then acc.draws + 1 else acc.draws
  let acc := { acc with calls := acc.calls ++ [ft], draws := draws }
  match price_data with
  | some pd =>
      let r := update_token_in_supabase (db2 ft pd) pd
      let acc := { acc with writes := acc.writes ++ r.2.toList }
      if r.1 then { acc with succ := acc.succ + 1 }
      else { acc with fail := acc.fail + 1 }
  | none => { acc with fail := acc.fail + 1 }

/-- `process_failed_tokens_in_batches` (`src/main.py:288-333`): the batched
double loop over the `FAILED_TOKENS_DEXSCREENER` queue. -/
def process_failed_tokens_in_batches (fetch2 : FailedToken → Option PoolInfo)
    (rng : Nat → Rat × Rat) (db2 : FailedToken → PriceData → Bool)
    (queue : List FailedToken) : Acc2 :=
  (chunkList GECKO_BATCH_SIZE queue).foldl
    (fun acc batch => batch.foldl (tier2Step fetch2 rng db2) acc)
    { succ := 0, fail := 0, draws := 0, calls := [], writes := [] }

/-! ### Run coordinator -/

/-- The eligibility filter of `fetch_tokens_from_supabase`
(`src/main.py:144-149`): truthy contract address, approved status, type
launched or presale. -/
def eligibleToken (t : Token) : Bool :=
  (match t.contract_address with
   | some s => s != ""
   | none => false) &&
  t.status == some "approved" &&
  (t.token_type == some "launched" || t.token_type == some "presale")

/-- `fetch_tokens_from_supabase` (`src/main.py:139-157`): `dbResp = none`
models the `except` branch (any error yields the empty list). -/
def fetch_tokens_from_supabase (dbResp : Option (List Token)) : List Token :=
  match dbResp with
  | none => []
  | some rows => rows.filter eligibleToken

/-- The observable outcome of one run of `main`: the aggregated counters
(`successful_updates`, `failed_updates`, `len(FAILED_TOKENS_DEXSCREENER)`)
together with the traces of source-client invocations and issued
persistence writes. -/
structure RunResult where
  success : Nat
  failed : Nat
  fallbackCount : Nat
  primaryCalls : List FailedToken
  secondaryCalls : List FailedToken
  writes : List UpdatePayload

/-- `main` (`src/main.py:335-373`): fetch and filter the population,
return early on an empty list, otherwise run both tiers and aggregate.
(Named `mainRun` because Lean reserves `main` for an `IO` entry point.) -/
def mainRun (dbResp : Option (List Token))
    (fetch1 : FailedToken → Option PriceData)
    (db1 : FailedToken → PriceData → Bool)
    (fetch2 : FailedToken → Option PoolInfo) (rng : Nat → Rat × Rat)
    (db2 : FailedToken → PriceData → Bool) : RunResult :=
  let tokens := fetch_tokens_from_supabase dbResp
  if tokens.isEmpty then
    { success := 0, failed := 0, fallbackCount := 0
      primaryCalls := [], secondaryCalls := [], writes := [] }
  else
    let a1 := process_tokens_in_batches fetch1 db1 tokens
    let a2 := process_failed_tokens_in_batches fetch2 rng db2 a1.queue
    { success := a1.succ + a2.succ
      failed := a1.fail + a2.fail
      fallbackCount := a1.queue.length
      primaryCalls := a1.calls
      secondaryCalls := a2.calls
      writes := a1.writes ++ a2.writes }


/-! ### Derived observation helpers (definitions used by the statements) -/

/-- Per-token outcome classification of the tier-1 loop body: `none` when
the primary fetch failed (token queued), `some b` when it succeeded and the
persistence call reported `b`. -/
def tier1Class (fetch1 : FailedToken → Option PriceData)
    (db1 : FailedToken → PriceData → Bool) (ft : FailedToken) : Option Bool :=
  match fetch1 ft with
  | none => none
  | some pd => some (update_token_in_supabase (db1 ft pd) pd).1

/-- The persistence writes issued for one tier-1 token. -/
def tier1WritesOf (fetch1 : FailedToken → Option PriceData)
    (db1 : FailedToken → PriceData → Bool) (ft : FailedToken) : List UpdatePayload :=
  match fetch1 ft with
  | none => []
  | some pd => (update_token_in_supabase (db1 ft pd) pd).2.toList

/-- The `chainId` value a record contributes to the first-match search
(`pair.get("chainId")` for a dict record, never a match otherwise). -/
def jsonChainTag : Json → Json
  | Json.obj kvs => (jLookup kvs "chainId").getD Json.null
  | _ => Json.null

/-- Shape-and-range condition on one primary-source pair record under
which the client's field accesses and price validation cannot raise: a
dict whose `priceChange` key, when present, holds a dict, and whose
`priceUsd` value does not overflow `float` conversion. -/
def dexPairShapeOk : Json → Bool
  | Json.obj kvs =>
      (match jLookup kvs "priceChange" with
        | none => true
        | some (Json.obj _) => true
        | some _ => false) &&
        !floatOverflows ((jLookup kvs "priceUsd").getD Json.null)
  | _ => false

/-- Shape of a primary-source response body that the client parses without
raising: a dict whose `pairs` value is either falsy or a list of
well-shaped pair records. -/
def dexShapeOk : Json → Bool
  | Json.obj kvs =>
      let pairs := (jLookup kvs "pairs").getD Json.null
      if pyTruthy pairs then
        match pairs with
        | Json.arr xs => xs.all dexPairShapeOk
        | _ => false
      else true
  | _ => false

/-- Shape of one secondary-source pool record that the client's field
accesses tolerate: a dict whose `attributes` key (when present) holds a
dict whose `price_change_percentage` key (when present) holds a dict. -/
def geckoPoolShapeOk : Json → Bool
  | Json.obj kvs =>
      match (jLookup kvs "attributes").getD (Json.obj []) with
      | Json.obj akvs =>
          match (jLookup akvs "price_change_percentage").getD (Json.obj []) with
          | Json.obj _ => true
          | _ => false
      | _ => false
  | _ => false

/-- Shape of a secondary-source response body that the client parses
without raising: a dict whose `data` value (defaulting to `[]`) is either
falsy or a non-empty list headed by a well-shaped pool record. -/
def geckoShapeOk : Json → Bool
  | Json.obj kvs =>
      let pools := (jLookup kvs "data").getD (Json.arr [])
      if pyTruthy pools then
        match pools with
        | Json.arr (x :: _) => geckoPoolShapeOk x
        | _ => false
      else true
  | _ => false

/-! ### Facts about the rounding model -/

lemma roundHalfEvenInt_bounds (x : Rat) (lo hi : Int) (hlo : (lo : Rat) ≤ x)
    (hhi : x ≤ (hi : Rat)) :
    lo ≤ roundHalfEvenInt x ∧ roundHalfEvenInt x ≤ hi := by
  simp only [roundHalfEvenInt]
  have hf_lo : lo ≤ ⌊x⌋ := Int.le_floor.mpr hlo
  have hf_hi : ⌊x⌋ ≤ hi := by
    have := Int.floor_mono hhi
    rwa [Int.floor_intCast] at this
  have hfx : (⌊x⌋ : Rat) ≤ x := Int.floor_le x
  split_ifs with hc1 hc2 hc3
  · exact ⟨hf_lo, hf_hi⟩
  · refine ⟨le_trans hf_lo (by omega), ?_⟩
    have hq : ((⌊x⌋ + 1 : Int) : Rat) < (hi : Rat) + 1 := by push_cast; linarith
    have : ⌊x⌋ + 1 < hi + 1 := by exact_mod_cast hq
    omega
  · exact ⟨hf_lo, hf_hi⟩
  · refine ⟨le_trans hf_lo (by omega), ?_⟩
    push_neg at hc1
    have hq : ((⌊x⌋ + 1 : Int) : Rat) < (hi : Rat) + 1 := by push_cast; linarith
    have : ⌊x⌋ + 1 < hi + 1 := by exact_mod_cast hq
    omega

lemma pyRound2_bounds {q : Rat} (h1 : -10 ≤ q) (h2 : q ≤ 10) :
    -10 ≤ pyRound2 q ∧ pyRound2 q ≤ 10 := by
  have hb := roundHalfEvenInt_bounds (q * 100) (-1000) 1000
    (by push_cast; linarith) (by push_cast; linarith)
  constructor
  · have : ((-1000 : Int) : Rat) ≤ (roundHalfEvenInt (q * 100) : Rat) := by
      exact_mod_cast hb.1
    unfold pyRound2
    push_cast at this ⊢
    linarith
  · have : ((roundHalfEvenInt (q * 100) : Int) : Rat) ≤ ((1000 : Int) : Rat) := by
      exact_mod_cast hb.2
    unfold pyRound2
    push_cast at this ⊢
    linarith

/-- The rounded value has exactly two decimal places: multiplying it back
by 100 yields an integer. -/
lemma pyRound2_two_decimals (q : Rat) : (pyRound2 q * 100).den = 1 := by
  unfold pyRound2
  rw [div_mul_cancel₀ _ (by norm_num : (100 : Rat) ≠ 0)]
  exact Rat.den_intCast _

/-! ### Facts about batch partitioning -/

lemma chunkList_nil (size : Nat) : chunkList size ([] : List α) = [] := by
  rw [chunkList]
  simp

lemma chunkList_cons (size : Nat) (hs : size ≠ 0) (l : List α) (hl : l ≠ []) :
    chunkList size l = l.take size :: chunkList size (l.drop size) := by
  rw [chunkList]
  rw [dif_neg]
  simp [List.isEmpty_iff, hl, hs]

lemma chunkList_flatten (size : Nat) (hs : 1 ≤ size) :
    ∀ l : List α, (chunkList size l).flatten = l
  | [] => by simp [chunkList_nil]
  | a :: l => by
      rw [chunkList_cons size (by omega) _ (by simp), List.flatten_cons,
        chunkList_flatten size hs ((a :: l).drop size)]
      exact List.take_append_drop size (a :: l)
termination_by l => l.length
decreasing_by
  simp only [List.length_drop, List.length_cons]
  omega

lemma chunkList_chunk_bounds (size : Nat) (hs : 1 ≤ size) :
    ∀ l : List α, ∀ c ∈ chunkList size l, c ≠ [] ∧ c.length ≤ size
  | [] => by simp [chunkList_nil]
  | a :: l => by
      rw [chunkList_cons size (by omega) _ (by simp)]
      intro c hc
      rcases List.mem_cons.mp hc with h | h
      · subst h
        refine ⟨?_, by simpa [List.length_take] using Nat.min_le_left _ _⟩
        simp only [ne_eq, List.take_eq_nil_iff]
        push_neg
        exact ⟨by omega, by simp⟩
      · exact chunkList_chunk_bounds size hs _ c h
termination_by l => l.length
decreasing_by
  simp only [List.length_drop, List.length_cons]
  omega

lemma chunkList_dropLast_full (size : Nat) (hs : 1 ≤ size) :
    ∀ l : List α, ∀ c ∈ (chunkList size l).dropLast, c.length = size
  | [] => by simp [chunkList_nil]
  | a :: l => by
      rw [chunkList_cons size (by omega) _ (by simp)]
      by_cases hd : (a :: l).drop size = []
      · rw [hd, chunkList_nil]
        simp
      · have hrest : chunkList size ((a :: l).drop size) ≠ [] := by
          rw [chunkList_cons size (by omega) _ hd]
          simp
        intro c hc
        rw [List.dropLast_cons_of_ne_nil hrest] at hc
        rcases List.mem_cons.mp hc with h | h
        · subst h
          have hlen : size ≤ l.length + 1 := by
            by_contra hcon
            push_neg at hcon
            refine hd (List.drop_eq_nil_of_le ?_)
            simp only [List.length_cons]
            omega
          simp only [List.length_take, List.length_cons]
          omega
        · exact chunkList_dropLast_full size hs _ c h
termination_by l => l.length
decreasing_by
  simp only [List.length_drop, List.length_cons]
  omega

lemma chunkList_degenerate (size : Nat) (hs : 1 ≤ size) (l : List α)
    (hl : l ≠ []) (hlen : l.length ≤ size) : chunkList size l = [l] := by
  rw [chunkList_cons size (by omega) l hl, List.take_of_length_le hlen,
    List.drop_eq_nil_of_le hlen, chunkList_nil]

lemma foldl_chunkList {σ : Type} (size : Nat) (hs : 1 ≤ size) (g : σ → α → σ) :
    ∀ (l : List α) (init : σ),
      (chunkList size l).foldl (fun acc c => c.foldl g acc) init = l.foldl g init
  | [], init => by simp [chunkList_nil]
  | a :: l, init => by
      rw [chunkList_cons size (by omega) _ (by simp)]
      conv_lhs => rw [List.foldl_cons]
      have IH := foldl_chunkList size hs g ((a :: l).drop size)
        (List.foldl g init (List.take size (a :: l)))
      rw [IH]
      conv_rhs => rw [← List.take_append_drop size (a :: l)]
      rw [List.foldl_append]
termination_by l _ => l.length
decreasing_by
  simp only [List.length_drop, List.length_cons]
  omega

/-! ### Facts about the tier-1 loop -/

lemma tier1Step_calls (fetch1 : FailedToken → Option PriceData)
    (db1 : FailedToken → PriceData → Bool) (acc : Acc1) (t : Token) :
    (tier1Step fetch1 db1 acc t).calls = acc.calls ++ [mkFailedToken t] := by
  cases h : fetch1 (mkFailedToken t) with
  | none => simp [tier1Step, h]
  | some pd =>
      by_cases hdb : (update_token_in_supabase (db1 (mkFailedToken t) pd) pd).1 = true <;>
        simp [tier1Step, h, hdb]

lemma tier1Step_queue (fetch1 : FailedToken → Option PriceData)
    (db1 : FailedToken → PriceData → Bool) (acc : Acc1) (t : Token) :
    (tier1Step fetch1 db1 acc t).queue =
      acc.queue ++
        (if (fetch1 (mkFailedToken t)).isNone then [mkFailedToken t] else []) := by
  cases h : fetch1 (mkFailedToken t) with
  | none => simp [tier1Step, h]
  | some pd =>
      by_cases hdb : (update_token_in_supabase (db1 (mkFailedToken t) pd) pd).1 = true <;>
        simp [tier1Step, h, hdb]

lemma tier1Step_succ (fetch1 : FailedToken → Option PriceData)
    (db1 : FailedToken → PriceData → Bool) (acc : Acc1) (t : Token) :
    (tier1Step fetch1 db1 acc t).succ =
      acc.succ +
        (if tier1Class fetch1 db1 (mkFailedToken t) == some true then 1 else 0) := by
  cases h : fetch1 (mkFailedToken t) with
  | none => simp [tier1Step, tier1Class, h]
  | some pd =>
      by_cases hdb : (update_token_in_supabase (db1 (mkFailedToken t) pd) pd).1 = true <;>
        simp [tier1Step, tier1Class, h, hdb]

lemma tier1Step_fail (fetch1 : FailedToken → Option PriceData)
    (db1 : FailedToken → PriceData → Bool) (acc : Acc1) (t : Token) :
    (tier1Step fetch1 db1 acc t).fail =
      acc.fail +
        (if tier1Class fetch1 db1 (mkFailedToken t) == some false then 1 else 0) := by
  cases h : fetch1 (mkFailedToken t) with
  | none => simp [tier1Step, tier1Class, h]
  | some pd =>
      by_cases hdb : (update_token_in_supabase (db1 (mkFailedToken t) pd) pd).1 = true <;>
        simp [tier1Step, tier1Class, h, hdb]

lemma tier1Step_writes (fetch1 : FailedToken → Option PriceData)
    (db1 : FailedToken → PriceData → Bool) (acc : Acc1) (t : Token) :
    (tier1Step fetch1 db1 acc t).writes =
      acc.writes ++ tier1WritesOf fetch1 db1 (mkFailedToken t) := by
  cases h : fetch1 (mkFailedToken t) with
  | none => simp [tier1Step, tier1WritesOf, h]
  | some pd =>
      by_cases hdb : (update_token_in_supabase (db1 (mkFailedToken t) pd) pd).1 = true <;>
        simp [tier1Step, tier1WritesOf, h, hdb]

lemma tier1_foldl_calls (fetch1 : FailedToken → Option PriceData)
    (db1 : FailedToken → PriceData → Bool) (l : List Token) :
    ∀ acc : Acc1,
      (l.foldl (tier1Step fetch1 db1) acc).calls =
        acc.calls ++ l.map mkFailedToken := by
  induction l with
  | nil => intro acc; simp
  | cons t l ih =>
      intro acc
      rw [List.foldl_cons, ih, tier1Step_calls]
      simp

lemma tier1_foldl_queue (fetch1 : FailedToken → Option PriceData)
    (db1 : FailedToken → PriceData → Bool) (l : List Token) :
    ∀ acc : Acc1,
      (l.foldl (tier1Step fetch1 db1) acc).queue =
        acc.queue ++ (l.map mkFailedToken).filter (fun x => (fetch1 x).isNone) := by
  induction l with
  | nil => intro acc; simp
  | cons t l ih =>
      intro acc
      rw [List.foldl_cons, ih, tier1Step_queue]
      by_cases h : (fetch1 (mkFailedToken t)).isNone <;>
        simp [List.filter_cons, h]

lemma tier1_foldl_succ (fetch1 : FailedToken → Option PriceData)
    (db1 : FailedToken → PriceData → Bool) (l : List Token) :
    ∀ acc : Acc1,
      (l.foldl (tier1Step fetch1 db1) acc).succ =
        acc.succ +
          (l.map mkFailedToken).countP
            (fun x => tier1Class fetch1 db1 x == some true) := by
  induction l with
  | nil => intro acc; simp
  | cons t l ih =>
      intro acc
      rw [List.foldl_cons, ih, tier1Step_succ]
      simp only [List.map_cons, List.countP_cons]
      by_cases h : (tier1Class fetch1 db1 (mkFailedToken t) == some true) = true <;>
        simp [h] <;> omega

lemma tier1_foldl_fail (fetch1 : FailedToken → Option PriceData)
    (db1 : FailedToken → PriceData → Bool) (l : List Token) :
    ∀ acc : Acc1,
      (l.foldl (tier1Step fetch1 db1) acc).fail =
        acc.fail +
          (l.map mkFailedToken).countP
            (fun x => tier1Class fetch1 db1 x == some false) := by
  induction l with
  | nil => intro acc; simp
  | cons t l ih =>
      intro acc
      rw [List.foldl_cons, ih, tier1Step_fail]
      simp only [List.map_cons, List.countP_cons]
      by_cases h : (tier1Class fetch1 db1 (mkFailedToken t) == some false) = true <;>
        simp [h] <;> omega

lemma tier1_foldl_writes (fetch1 : FailedToken → Option PriceData)
    (db1 : FailedToken → PriceData → Bool) (l : List Token) :
    ∀ acc : Acc1,
      (l.foldl (tier1Step fetch1 db1) acc).writes =
        acc.writes ++ (l.map mkFailedToken).flatMap (tier1WritesOf fetch1 db1) := by
  induction l with
  | nil => intro acc; simp
  | cons t l ih =>
      intro acc
      rw [List.foldl_cons, ih, tier1Step_writes]
      simp

/-- `process_tokens_in_batches` is the plain sequential fold: batching does
not change which tokens are processed, in which order, or the outcome. -/
lemma process_tokens_in_batches_eq_foldl (fetch1 : FailedToken → Option PriceData)
    (db1 : FailedToken → PriceData → Bool) (tokens : List Token) :
    process_tokens_in_batches fetch1 db1 tokens =
      tokens.foldl (tier1Step fetch1 db1)
        { succ := 0, fail := 0, queue := [], calls := [], writes := [] } := by
  unfold process_tokens_in_batches
  exact foldl_chunkList BATCH_SIZE (by decide) _ tokens _

/-! ### Facts about the tier-2 loop -/

lemma resolveFallback_isSome (fetch2 : FailedToken → Option PoolInfo)
    (r1 r2 : Rat) (ft : FailedToken) :
    (resolveFallback fetch2 r1 r2 ft).isSome = true := by
  unfold resolveFallback
  cases fetch2 ft <;> simp [get_price_from_geckoterminal]

lemma tier2Step_calls (fetch2 : FailedToken → Option PoolInfo)
    (rng : Nat → Rat × Rat) (db2 : FailedToken → PriceData → Bool)
    (acc : Acc2) (ft : FailedToken) :
    (tier2Step fetch2 rng db2 acc ft).calls = acc.calls ++ [ft] := by
  unfold tier2Step
  cases hp : resolveFallback fetch2 (rng acc.draws).1 (rng acc.draws).2 ft with
  | none => simp [hp]
  | some pd =>
      simp only [hp]
      by_cases hdb : (update_token_in_supabase (db2 ft pd) pd).1 = true <;>
        simp [hdb]

lemma tier2Step_sum (fetch2 : FailedToken → Option PoolInfo)
    (rng : Nat → Rat × Rat) (db2 : FailedToken → PriceData → Bool)
    (acc : Acc2) (ft : FailedToken) :
    (tier2Step fetch2 rng db2 acc ft).succ + (tier2Step fetch2 rng db2 acc ft).fail =
      acc.succ + acc.fail + 1 := by
  unfold tier2Step
  cases hp : resolveFallback fetch2 (rng acc.draws).1 (rng acc.draws).2 ft with
  | none => simp [hp]; omega
  | some pd =>
      simp only [hp]
      by_cases hdb : (update_token_in_supabase (db2 ft pd) pd).1 = true <;>
        simp [hdb] <;> omega

lemma tier2_foldl_calls (fetch2 : FailedToken → Option PoolInfo)
    (rng : Nat → Rat × Rat) (db2 : FailedToken → PriceData → Bool)
    (q : List FailedToken) :
    ∀ acc : Acc2,
      (q.foldl (tier2Step fetch2 rng db2) acc).calls = acc.calls ++ q := by
  induction q with
  | nil => intro acc; simp
  | cons ft q ih =>
      intro acc
      rw [List.foldl_cons, ih, tier2Step_calls]
      simp

lemma tier2_foldl_sum (fetch2 : FailedToken → Option PoolInfo)
    (rng : Nat → Rat × Rat) (db2 : FailedToken → PriceData → Bool)
    (q : List FailedToken) :
    ∀ acc : Acc2,
      (q.foldl (tier2Step fetch2 rng db2) acc).succ +
          (q.foldl (tier2Step fetch2 rng db2) acc).fail =
        acc.succ + acc.fail + q.length := by
  induction q with
  | nil => intro acc; simp
  | cons ft q ih =>
      intro acc
      rw [List.foldl_cons, ih, tier2Step_sum]
      simp only [List.length_cons]
      omega

/-- `process_failed_tokens_in_batches` is the plain sequential fold over
the queue. -/
lemma process_failed_tokens_in_batches_eq_foldl
    (fetch2 : FailedToken → Option PoolInfo) (rng : Nat → Rat × Rat)
    (db2 : FailedToken → PriceData → Bool) (queue : List FailedToken) :
    process_failed_tokens_in_batches fetch2 rng db2 queue =
      queue.foldl (tier2Step fetch2 rng db2)
        { succ := 0, fail := 0, draws := 0, calls := [], writes := [] } := by
  unfold process_failed_tokens_in_batches
  exact foldl_chunkList GECKO_BATCH_SIZE (by decide) _ queue _

lemma process_failed_calls (fetch2 : FailedToken → Option PoolInfo)
    (rng : Nat → Rat × Rat) (db2 : FailedToken → PriceData → Bool)
    (queue : List FailedToken) :
    (process_failed_tokens_in_batches fetch2 rng db2 queue).calls = queue := by
  rw [process_failed_tokens_in_batches_eq_foldl, tier2_foldl_calls]
  simp

lemma process_failed_sum (fetch2 : FailedToken → Option PoolInfo)
    (rng : Nat → Rat × Rat) (db2 : FailedToken → PriceData → Bool)
    (queue : List FailedToken) :
    (process_failed_tokens_in_batches fetch2 rng db2 queue).succ +
        (process_failed_tokens_in_batches fetch2 rng db2 queue).fail =
      queue.length := by
  rw [process_failed_tokens_in_batches_eq_foldl, tier2_foldl_sum]
  simp

/-- Every tier-1 token falls in exactly one bucket: persisted, failed
persistence, or queued for fallback. -/
lemma tier1_count_partition (fetch1 : FailedToken → Option PriceData)
    (db1 : FailedToken → PriceData → Bool) (L : List FailedToken) :
    L.countP (fun x => tier1Class fetch1 db1 x == some true) +
        L.countP (fun x => tier1Class fetch1 db1 x == some false) +
        (L.filter (fun x => (fetch1 x).isNone)).length =
      L.length := by
  induction L with
  | nil => simp
  | cons x L ih =>
      simp only [List.countP_cons, List.filter_cons, List.length_cons]
      cases h : fetch1 x with
      | none =>
          have hc : tier1Class fetch1 db1 x = none := by simp [tier1Class, h]
          simp only [hc, h]
          simp
          omega
      | some pd =>
          have hc : tier1Class fetch1 db1 x =
              some (update_token_in_supabase (db1 x pd) pd).1 := by
            simp [tier1Class, h]
          cases hb : (update_token_in_supabase (db1 x pd) pd).1 <;>
            · simp only [hc, hb, h]
              simp
              omega

/-! ### Claim theorems -/

/-- Claim C1: for every token list and every batch size of at least one,
the batch scheduler partitions the list into consecutive chunks of the
configured batch size — every chunk is non-empty and at most the batch
size, every chunk except the last is exactly the batch size — whose
concatenation reproduces the original list in order; a batch size at least
the list length degenerates to a single batch; and in both tiers the
batched loop invokes the per-item action exactly once per item in input
order (the tier-1 fetch-call trace is the token list itself, the tier-2
trace is the queue itself). -/
theorem claim_C1 (B : Nat) (hB : 1 ≤ B) (l : List Token) :
    (chunkList B l).flatten = l
    ∧ (∀ c ∈ chunkList B l, c ≠ [] ∧ c.length ≤ B)
    ∧ (∀ c ∈ (chunkList B l).dropLast, c.length = B)
    ∧ (l ≠ [] → l.length ≤ B → chunkList B l = [l])
    ∧ (∀ (fetch1 : FailedToken → Option PriceData)
        (db1 : FailedToken → PriceData → Bool),
        (process_tokens_in_batches fetch1 db1 l).calls = l.map mkFailedToken)
    ∧ (∀ (fetch2 : FailedToken → Option PoolInfo) (rng : Nat → Rat × Rat)
        (db2 : FailedToken → PriceData → Bool) (q : List FailedToken),
        (process_failed_tokens_in_batches fetch2 rng db2 q).calls = q) := by
  refine ⟨chunkList_flatten B hB l, chunkList_chunk_bounds B hB l,
    chunkList_dropLast_full B hB l,
    fun h1 h2 => chunkList_degenerate B hB l h1 h2, ?_, ?_⟩
  · intro fetch1 db1
    rw [process_tokens_in_batches_eq_foldl, tier1_foldl_calls]
    simp
  · intro fetch2 rng db2 q
    exact process_failed_calls fetch2 rng db2 q

theorem claim_C1_witness :
    1 ≤ 2 ∧
      (chunkList 2
          [({ id := some "1", name := some "A", contract_address := some "0xa",
              chain := some "ethereum", status := some "approved",
              token_type := some "launched" } : Token),
            { id := some "2", name := some "B", contract_address := some "0xb",
              chain := some "bsc", status := some "approved",
              token_type := some "launched" },
            { id := some "3", name := some "C", contract_address := some "0xc",
              chain := some "solana", status := some "approved",
              token_type := some "presale" }]).flatten =
        [({ id := some "1", name := some "A", contract_address := some "0xa",
            chain := some "ethereum", status := some "approved",
            token_type := some "launched" } : Token),
          { id := some "2", name := some "B", contract_address := some "0xb",
            chain := some "bsc", status := some "approved",
            token_type := some "launched" },
          { id := some "3", name := some "C", contract_address := some "0xc",
            chain := some "solana", status := some "approved",
            token_type := some "presale" }] :=
  ⟨by decide, (claim_C1 2 (by decide) _).1⟩

/-- Claim C2: the fallback resolver is total.  When the secondary source
also fails for a queued token (the primary already failed, which is why
the token is queued), it still returns a record tagged with the synthetic
source `"fallback_random"`, with the price absent and with both
percent-change fields equal to the two uniform draws from [-10, 10]
rounded to two decimals — hence themselves within [-10, 10] with
two-decimal precision; and for every fetch outcome whatsoever the resolver
produces some record, never failing its caller. -/
theorem claim_C2 (fetch2 : FailedToken → Option PoolInfo) (ft : FailedToken)
    (r1 r2 : Rat) (hf : fetch2 ft = none)
    (h1a : -10 ≤ r1) (h1b : r1 ≤ 10) (h2a : -10 ≤ r2) (h2b : r2 ≤ 10) :
    resolveFallback fetch2 r1 r2 ft = some (generate_random_price_changes r1 r2)
    ∧ (generate_random_price_changes r1 r2).source = "fallback_random"
    ∧ (generate_random_price_changes r1 r2).current_price = Json.null
    ∧ (generate_random_price_changes r1 r2).price_1h_change = Json.num (pyRound2 r1)
    ∧ (generate_random_price_changes r1 r2).price_24h_change = Json.num (pyRound2 r2)
    ∧ -10 ≤ pyRound2 r1 ∧ pyRound2 r1 ≤ 10 ∧ (pyRound2 r1 * 100).den = 1
    ∧ -10 ≤ pyRound2 r2 ∧ pyRound2 r2 ≤ 10 ∧ (pyRound2 r2 * 100).den = 1
    ∧ (∀ (g : FailedToken → Option PoolInfo) (ft2 : FailedToken),
        (resolveFallback g r1 r2 ft2).isSome = true) := by
  obtain ⟨hb1, hb2⟩ := pyRound2_bounds h1a h1b
  obtain ⟨hc1, hc2⟩ := pyRound2_bounds h2a h2b
  refine ⟨?_, rfl, rfl, rfl, rfl, hb1, hb2, pyRound2_two_decimals r1,
    hc1, hc2, pyRound2_two_decimals r2,
    fun g ft2 => resolveFallback_isSome g r1 r2 ft2⟩
  unfold resolveFallback
  rw [hf]

theorem claim_C2_witness :
    (-10 : Rat) ≤ 3 ∧ (3 : Rat) ≤ 10 ∧
      resolveFallback (fun _ => none) 3 (-7)
          { token_id := some "1", token_name := "A",
            contract_address := some "0xa", chain := "ethereum" } =
        some (generate_random_price_changes 3 (-7)) :=
  ⟨by decide, by decide,
    (claim_C2 (fun _ => none)
      { token_id := some "1", token_name := "A",
        contract_address := some "0xa", chain := "ethereum" } 3 (-7) rfl
      (by decide) (by decide) (by decide) (by decide)).1⟩

/-- Claim C3: the tier-1 fallback queue consists exactly of the tokens
whose primary fetch failed, in input order; the secondary tier iterates
exactly that queue; hence a token for which the primary source returned a
record is never handed to the secondary tier. -/
theorem claim_C3 (fetch1 : FailedToken → Option PriceData)
    (db1 : FailedToken → PriceData → Bool) (l : List Token)
    (fetch2 : FailedToken → Option PoolInfo) (rng : Nat → Rat × Rat)
    (db2 : FailedToken → PriceData → Bool) (ft : FailedToken)
    (h : (fetch1 ft).isSome = true) :
    (process_tokens_in_batches fetch1 db1 l).queue =
        (l.map mkFailedToken).filter (fun x => (fetch1 x).isNone)
    ∧ (process_failed_tokens_in_batches fetch2 rng db2
          (process_tokens_in_batches fetch1 db1 l).queue).calls =
        (process_tokens_in_batches fetch1 db1 l).queue
    ∧ ft ∉ (process_failed_tokens_in_batches fetch2 rng db2
          (process_tokens_in_batches fetch1 db1 l).queue).calls := by
  have hq : (process_tokens_in_batches fetch1 db1 l).queue =
      (l.map mkFailedToken).filter (fun x => (fetch1 x).isNone) := by
    rw [process_tokens_in_batches_eq_foldl, tier1_foldl_queue]
    simp
  refine ⟨hq, process_failed_calls fetch2 rng db2 _, ?_⟩
  rw [process_failed_calls, hq]
  intro hmem
  have hnone := List.of_mem_filter hmem
  rw [Option.isSome_iff_exists] at h
  obtain ⟨v, hv⟩ := h
  rw [hv] at hnone
  exact absurd hnone (by simp)

theorem claim_C3_witness :
    ({ token_id := some "1", token_name := "A", contract_address := some "0xa",
        chain := "ethereum" } : FailedToken) ∉
      (process_failed_tokens_in_batches (fun _ => none) (fun _ => (0, 0))
          (fun _ _ => true)
          (process_tokens_in_batches
            (fun ft => if ft.token_name == "A" then
                some { price_1h_change := Json.num 1,
                       price_24h_change := Json.null,
                       current_price := Json.null, source := "dexscreener" }
              else none)
            (fun _ _ => true)
            [{ id := some "1", name := some "A", contract_address := some "0xa",
               chain := some "ethereum", status := some "approved",
               token_type := some "launched" },
             { id := some "2", name := some "B", contract_address := some "0xb",
               chain := some "bsc", status := some "approved",
               token_type := some "launched" }]).queue).calls :=
  (claim_C3
    (fun ft => if ft.token_name == "A" then
        some { price_1h_change := Json.num 1, price_24h_change := Json.null,
               current_price := Json.null, source := "dexscreener" }
      else none)
    (fun _ _ => true)
    [{ id := some "1", name := some "A", contract_address := some "0xa",
       chain := some "ethereum", status := some "approved",
       token_type := some "launched" },
     { id := some "2", name := some "B", contract_address := some "0xb",
       chain := some "bsc", status := some "approved",
       token_type := some "launched" }]
    (fun _ => none) (fun _ => (0, 0)) (fun _ _ => true)
    { token_id := some "1", token_name := "A", contract_address := some "0xa",
      chain := "ethereum" } (by decide)).2.2

/-- Claim C6: when the eligible token set is empty, the run terminates
immediately with the zero-count summary (success 0, failed 0, fallback
count 0) and performs no source-client invocation and no persistence
write. -/
theorem claim_C6 (dbResp : Option (List Token))
    (fetch1 : FailedToken → Option PriceData)
    (db1 : FailedToken → PriceData → Bool)
    (fetch2 : FailedToken → Option PoolInfo) (rng : Nat → Rat × Rat)
    (db2 : FailedToken → PriceData → Bool)
    (h : fetch_tokens_from_supabase dbResp = []) :
    mainRun dbResp fetch1 db1 fetch2 rng db2 =
      { success := 0, failed := 0, fallbackCount := 0,
        primaryCalls := [], secondaryCalls := [], writes := [] } := by
  simp only [mainRun, h]
  simp

theorem claim_C6_witness :
    mainRun
      (some [{ id := some "1", name := some "A",
               contract_address := some "0xa", chain := some "ethereum",
               status := some "pending", token_type := some "launched" }])
      (fun _ => none) (fun _ _ => true) (fun _ => none) (fun _ => (0, 0))
      (fun _ _ => true) =
      { success := 0, failed := 0, fallbackCount := 0,
        primaryCalls := [], secondaryCalls := [], writes := [] } :=
  claim_C6 _ _ _ _ _ _ rfl

/-- Claim C8: in both tiers, a token whose fetch produced a record but
whose persistence call failed increments exactly the failed counter — not
the success counter and (tier 1) not the fallback queue; across a whole
run the tier-1 counters are exactly the counts of persisted and
persistence-failed tokens; and a persistence failure neither aborts the
run nor affects the processing of other tokens: the invocation traces and
the tier-1 queue are independent of the persistence oracle, and tier 2
still accounts for every queued token. -/
theorem claim_C8 (fetch1 : FailedToken → Option PriceData)
    (db1 db1' : FailedToken → PriceData → Bool) (l : List Token)
    (fetch2 : FailedToken → Option PoolInfo) (rng : Nat → Rat × Rat)
    (db2 db2' : FailedToken → PriceData → Bool) (q : List FailedToken)
    (acc1 : Acc1) (t : Token) (pd1 : PriceData)
    (acc2 : Acc2) (ft : FailedToken) (pd2 : PriceData)
    (hf1 : fetch1 (mkFailedToken t) = some pd1)
    (hu1 : (update_token_in_supabase (db1 (mkFailedToken t) pd1) pd1).1 = false)
    (hf2 : resolveFallback fetch2 (rng acc2.draws).1 (rng acc2.draws).2 ft = some pd2)
    (hu2 : (update_token_in_supabase (db2 ft pd2) pd2).1 = false) :
    ((tier1Step fetch1 db1 acc1 t).fail = acc1.fail + 1
      ∧ (tier1Step fetch1 db1 acc1 t).succ = acc1.succ
      ∧ (tier1Step fetch1 db1 acc1 t).queue = acc1.queue)
    ∧ ((tier2Step fetch2 rng db2 acc2 ft).fail = acc2.fail + 1
      ∧ (tier2Step fetch2 rng db2 acc2 ft).succ = acc2.succ)
    ∧ (process_tokens_in_batches fetch1 db1 l).succ =
        (l.map mkFailedToken).countP
          (fun x => tier1Class fetch1 db1 x == some true)
    ∧ (process_tokens_in_batches fetch1 db1 l).fail =
        (l.map mkFailedToken).countP
          (fun x => tier1Class fetch1 db1 x == some false)
    ∧ (process_tokens_in_batches fetch1 db1 l).calls =
        (process_tokens_in_batches fetch1 db1' l).calls
    ∧ (process_tokens_in_batches fetch1 db1 l).queue =
        (process_tokens_in_batches fetch1 db1' l).queue
    ∧ (process_failed_tokens_in_batches fetch2 rng db2 q).calls =
        (process_failed_tokens_in_batches fetch2 rng db2' q).calls
    ∧ (process_failed_tokens_in_batches fetch2 rng db2 q).succ +
          (process_failed_tokens_in_batches fetch2 rng db2 q).fail =
        q.length := by
  refine ⟨⟨?_, ?_, ?_⟩, ⟨?_, ?_⟩, ?_, ?_, ?_, ?_, ?_, ?_⟩
  · simp [tier1Step, hf1, hu1]
  · simp [tier1Step, hf1, hu1]
  · simp [tier1Step, hf1, hu1]
  · unfold tier2Step
    rw [hf2]
    simp [hu2]
  · unfold tier2Step
    rw [hf2]
    simp [hu2]
  · rw [process_tokens_in_batches_eq_foldl, tier1_foldl_succ]
    simp
  · rw [process_tokens_in_batches_eq_foldl, tier1_foldl_fail]
    simp
  · rw [process_tokens_in_batches_eq_foldl, process_tokens_in_batches_eq_foldl,
      tier1_foldl_calls, tier1_foldl_calls]
  · rw [process_tokens_in_batches_eq_foldl, process_tokens_in_batches_eq_foldl,
      tier1_foldl_queue, tier1_foldl_queue]
  · rw [process_failed_calls, process_failed_calls]
  · exact process_failed_sum fetch2 rng db2 q

theorem claim_C8_witness :
    (tier1Step
        (fun _ => some ⟨Json.num 1, Json.null, Json.null, "dexscreener"⟩)
        (fun _ _ => false) ⟨0, 0, [], [], []⟩
        ⟨some "1", some "A", some "0xa", some "ethereum", some "approved",
          some "launched"⟩).fail = 0 + 1 :=
  (claim_C8
    (fun _ => some ⟨Json.num 1, Json.null, Json.null, "dexscreener"⟩)
    (fun _ _ => false) (fun _ _ => true) []
    (fun _ => none) (fun _ => (0, 0)) (fun _ _ => false) (fun _ _ => true) []
    ⟨0, 0, [], [], []⟩
    ⟨some "1", some "A", some "0xa", some "ethereum", some "approved",
      some "launched"⟩
    ⟨Json.num 1, Json.null, Json.null, "dexscreener"⟩
    ⟨0, 0, 0, [], []⟩
    ⟨some "2", "B", some "0xb", "bsc"⟩
    (generate_random_price_changes 0 0)
    rfl rfl rfl rfl).1.1

/-- Claim C10: for every run, under every combination of fetch and
persistence outcomes, the final success count plus the final failed count
equals the number of eligible tokens — every eligible token is accounted
for exactly once, because each tier-1 fetch failure enters the fallback
queue and the fallback tier settles every queued token as a success or a
failure.  (The identity also holds trivially for the empty eligible list.) -/
theorem claim_C10 (dbResp : Option (List Token))
    (fetch1 : FailedToken → Option PriceData)
    (db1 : FailedToken → PriceData → Bool)
    (fetch2 : FailedToken → Option PoolInfo) (rng : Nat → Rat × Rat)
    (db2 : FailedToken → PriceData → Bool) :
    (mainRun dbResp fetch1 db1 fetch2 rng db2).success +
        (mainRun dbResp fetch1 db1 fetch2 rng db2).failed =
      (fetch_tokens_from_supabase dbResp).length := by
  simp only [mainRun]
  by_cases h : (fetch_tokens_from_supabase dbResp).isEmpty
  · simp [h, List.isEmpty_iff.mp h]
  · rw [Bool.not_eq_true] at h
    simp only [h, Bool.false_eq_true, if_false]
    have h1s := tier1_foldl_succ fetch1 db1 (fetch_tokens_from_supabase dbResp)
      ({ succ := 0, fail := 0, queue := [], calls := [], writes := [] } : Acc1)
    have h1f := tier1_foldl_fail fetch1 db1 (fetch_tokens_from_supabase dbResp)
      ({ succ := 0, fail := 0, queue := [], calls := [], writes := [] } : Acc1)
    have h1q := tier1_foldl_queue fetch1 db1 (fetch_tokens_from_supabase dbResp)
      ({ succ := 0, fail := 0, queue := [], calls := [], writes := [] } : Acc1)
    have h2 := process_failed_sum fetch2 rng db2
      (process_tokens_in_batches fetch1 db1 (fetch_tokens_from_supabase dbResp)).queue
    have hpart := tier1_count_partition fetch1 db1
      ((fetch_tokens_from_supabase dbResp).map mkFailedToken)
    rw [process_tokens_in_batches_eq_foldl] at *
    rw [h1s, h1f, h1q] at *
    simp only [List.length_map] at hpart
    simp only [List.nil_append, Nat.zero_add] at *
    omega

/-- Claim C4 counterexample: the empty string is not a valid numeric
string (`float("")` raises), yet the normalization leaves it in place
instead of resetting the price to absent, because the falsy check
`if current_price:` skips validation entirely. -/
theorem claim_C4_counterexample :
    pyFloatParses "" = false ∧
      normalizeCurrentPrice (Json.str "") = Json.str "" :=
  ⟨rfl, rfl⟩

/-- Claim C4 (amended): the primary client's price normalization preserves
any numeric price string exactly — the parse is used only for validation,
never to replace the string — and resets the price to absent whenever the
string is non-empty and not a valid numeric string; the empty string,
being falsy, bypasses validation and passes through unchanged. -/
theorem claim_C4 (s : String) :
    (pyFloatParses s = true → normalizeCurrentPrice (Json.str s) = Json.str s)
    ∧ (s ≠ "" → pyFloatParses s = false →
        normalizeCurrentPrice (Json.str s) = Json.null) := by
  constructor
  · intro hp
    unfold normalizeCurrentPrice
    by_cases he : s = ""
    · simp [pyTruthy, he]
    · simp [pyTruthy, pyFloatOk, he, hp]
  · intro he hp
    simp [normalizeCurrentPrice, pyTruthy, pyFloatOk, he, hp]

theorem claim_C4_witness :
    normalizeCurrentPrice (Json.str "0.00000008369") =
        Json.str "0.00000008369"
    ∧ normalizeCurrentPrice (Json.str "not-a-number") = Json.null :=
  ⟨(claim_C4 "0.00000008369").1 (by decide),
    (claim_C4 "not-a-number").2 (by decide) (by decide)⟩

lemma jLookup_ne_nil {kvs : List (String × Json)} {k : String} {v : Json}
    (h : jLookup kvs k = some v) : kvs ≠ [] := by
  intro he
  subst he
  simp [jLookup] at h

lemma except_ok_bind {α β : Type} (a : α) (f : α → Except PyErr β) :
    (Except.ok a >>= f) = f a := rfl

lemma findMatchingPair_objs (dex : String) (ps : List Json)
    (hobj : ∀ p ∈ ps, ∃ kvs, p = Json.obj kvs) :
    findMatchingPair dex ps =
      Except.ok (ps.find? (fun p => pyEqStr (jsonChainTag p) dex)) := by
  induction ps with
  | nil => rfl
  | cons p ps ih =>
      obtain ⟨kvs, rfl⟩ := hobj p (List.mem_cons_self p ps)
      simp only [findMatchingPair, pyGet, except_ok_bind]
      by_cases hm : pyEqStr ((jLookup kvs "chainId").getD Json.null) dex = true
      · rw [if_pos hm, List.find?_cons_of_pos _ (by simpa [jsonChainTag] using hm)]
      · rw [Bool.not_eq_true] at hm
        rw [if_neg (by simp [hm]),
          List.find?_cons_of_neg _ (by simp [jsonChainTag, hm])]
        exact ih (fun x hx => hobj x (List.mem_cons_of_mem _ hx))

/-- Claim C5: on a non-empty list of records, the primary client selects
the first record whose own chain tag equals the resolved network key
(`dexSelectPair` is invoked by `dexParseResponse` with the key
`dexChainMap chain`), and when no record matches it falls back to the
first record of the list unconditionally — a deterministic first-match
policy with no quality ranking. -/
theorem claim_C5 (dex_chain : String) (ps : List Json) (hne : ps ≠ [])
    (hobj : ∀ p ∈ ps, ∃ kvs, p = Json.obj kvs) :
    dexSelectPair dex_chain ps (Json.arr ps) =
      Except.ok
        ((ps.find? (fun p => pyEqStr (jsonChainTag p) dex_chain)).getD
          (ps.headD Json.null)) := by
  unfold dexSelectPair
  rw [findMatchingPair_objs _ ps hobj]
  simp only [except_ok_bind]
  cases hfind : ps.find? (fun p => pyEqStr (jsonChainTag p) dex_chain) with
  | none =>
      cases ps with
      | nil => exact absurd rfl hne
      | cons a t => simp [pyIndex0]
  | some p =>
      have hp := List.find?_some hfind
      have hmem := List.mem_of_find?_eq_some hfind
      obtain ⟨kvs, rfl⟩ := hobj _ hmem
      have hkvs : kvs ≠ [] := by
        cases hl : jLookup kvs "chainId" with
        | none => simp [jsonChainTag, hl, pyEqStr] at hp
        | some v => exact jLookup_ne_nil hl
      show (if pyTruthy (Json.obj kvs) = true then Except.ok (Json.obj kvs)
          else pyIndex0 (Json.arr ps)) = _
      rw [if_pos (by simp [pyTruthy, hkvs])]
      simp

theorem claim_C5_witness :
    dexSelectPair "ethereum"
        [Json.obj [("chainId", Json.str "bsc")],
          Json.obj [("chainId", Json.str "ethereum")]]
        (Json.arr
          [Json.obj [("chainId", Json.str "bsc")],
            Json.obj [("chainId", Json.str "ethereum")]]) =
      Except.ok (Json.obj [("chainId", Json.str "ethereum")]) :=
  (claim_C5 "ethereum"
    [Json.obj [("chainId", Json.str "bsc")],
      Json.obj [("chainId", Json.str "ethereum")]]
    (by simp)
    (by
      intro p hp
      simp only [List.mem_cons, List.not_mem_nil, or_false] at hp
      rcases hp with rfl | rfl
      · exact ⟨_, rfl⟩
      · exact ⟨_, rfl⟩)).trans rfl

/-- Claim C7 counterexample: a record with all three numeric fields absent
is a partial result in the claim's sense (the empty subset), yet the
persistence layer issues no write at all for it — the
`len(update_payload) > 1` guard suppresses the update and the call reports
failure — instead of persisting it with only the timestamp. -/
theorem claim_C7_counterexample :
    update_token_in_supabase true
        ⟨Json.null, Json.null, Json.null, "dexscreener"⟩ = (false, none) :=
  rfl

/-- Claim C7 (amended): whenever a persistence write is issued, its
payload contains exactly the non-absent numeric fields of the update plus
the always-present updated-at marker and no absent field; a write is
issued if and only if at least one of the three numeric fields is present
(so every partial result with a non-empty present subset is persisted with
only the present fields, while the all-absent record is not persisted and
the call reports failure); and the call succeeds exactly when a write is
issued and the store accepts it. -/
theorem claim_C7 (dbOk : Bool) (pd : PriceData) :
    ((mkPayload pd).updated_at = true
      ∧ (mkPayload pd).price_1h_change =
          (if isNull pd.price_1h_change then none else some pd.price_1h_change)
      ∧ (mkPayload pd).price_24h_change =
          (if isNull pd.price_24h_change then none else some pd.price_24h_change)
      ∧ (mkPayload pd).current_price =
          (if isNull pd.current_price then none else some pd.current_price))
    ∧ (update_token_in_supabase dbOk pd).2 =
        (if !isNull pd.price_1h_change || !isNull pd.price_24h_change ||
            !isNull pd.current_price
         then some (mkPayload pd) else none)
    ∧ (update_token_in_supabase dbOk pd).1 =
        (dbOk && (!isNull pd.price_1h_change || !isNull pd.price_24h_change ||
          !isNull pd.current_price)) := by
  refine ⟨⟨rfl, rfl, rfl, rfl⟩, ?_, ?_⟩ <;>
    · by_cases h1 : isNull pd.price_1h_change <;>
        by_cases h2 : isNull pd.price_24h_change <;>
          by_cases h3 : isNull pd.current_price <;>
            · simp [update_token_in_supabase, payloadLen, mkPayload, h1, h2, h3]

lemma dexSelectPair_mem (dex : String) (ps : List Json) (hne : ps ≠ [])
    (hobj : ∀ p ∈ ps, ∃ kvs, p = Json.obj kvs) :
    ∃ pr, dexSelectPair dex ps (Json.arr ps) = Except.ok pr ∧ pr ∈ ps := by
  unfold dexSelectPair
  rw [findMatchingPair_objs _ ps hobj]
  simp only [except_ok_bind]
  cases hfind : ps.find? (fun p => pyEqStr (jsonChainTag p) dex) with
  | none =>
      cases ps with
      | nil => exact absurd rfl hne
      | cons a t => exact ⟨a, by simp [pyIndex0], List.mem_cons_self a t⟩
  | some p =>
      have hmem := List.mem_of_find?_eq_some hfind
      by_cases hT : pyTruthy p = true
      · exact ⟨p, by simp [hT], hmem⟩
      · cases ps with
        | nil => exact absurd rfl hne
        | cons a t =>
            exact ⟨a, by simp [hT, pyIndex0], List.mem_cons_self a t⟩

lemma dexParseResponse_ok_of_shape (chain : String) (data : Json)
    (h : dexShapeOk data = true) :
    exceptIsOk (dexParseResponse chain data) = true := by
  cases data with
  | obj kvs =>
      simp only [dexShapeOk] at h
      unfold dexParseResponse
      simp only [pyGet, except_ok_bind]
      by_cases ht : pyTruthy ((jLookup kvs "pairs").getD Json.null) = true
      · rw [if_pos ht] at h ⊢
        cases hp : (jLookup kvs "pairs").getD Json.null with
        | arr xs =>
            rw [hp] at h ht
            have hall : xs.all dexPairShapeOk = true := h
            have hxs : xs ≠ [] := by
              simp [pyTruthy, List.isEmpty_iff] at ht
              exact ht
            have hobjs : ∀ p ∈ xs, ∃ k, p = Json.obj k := by
              intro p hpmem
              have := List.all_eq_true.mp hall p hpmem
              cases p <;> simp [dexPairShapeOk] at this <;> exact ⟨_, rfl⟩
            simp only [pyLen, except_ok_bind]
            rw [if_pos (by simpa [List.length_pos] using hxs)]
            simp only [pyIterList, except_ok_bind]
            obtain ⟨pr, hsel, hprmem⟩ :=
              dexSelectPair_mem (dexChainMap chain) xs hxs hobjs
            rw [hsel]
            simp only [except_ok_bind]
            obtain ⟨pk, rfl⟩ := hobjs pr hprmem
            have hshape := List.all_eq_true.mp hall _ hprmem
            simp only [pyGetD, except_ok_bind]
            have hpcobj : ∃ ak,
                (jLookup pk "priceChange").getD (Json.obj []) = Json.obj ak := by
              cases hl : jLookup pk "priceChange" with
              | none => exact ⟨[], rfl⟩
              | some v =>
                  cases v with
                  | obj a => exact ⟨a, rfl⟩
                  | null => simp [dexPairShapeOk, hl] at hshape
                  | bool b => simp [dexPairShapeOk, hl] at hshape
                  | num q => simp [dexPairShapeOk, hl] at hshape
                  | str s => simp [dexPairShapeOk, hl] at hshape
                  | arr a => simp [dexPairShapeOk, hl] at hshape
            obtain ⟨ak, hak⟩ := hpcobj
            rw [hak]
            have hov : floatOverflows
                ((jLookup pk "priceUsd").getD Json.null) = false := by
              simp only [dexPairShapeOk, Bool.and_eq_true,
                Bool.not_eq_true'] at hshape
              exact hshape.2
            simp only [pyGet, except_ok_bind]
            simp [validateCurrentPrice, hov, except_ok_bind, exceptIsOk]
        | null => rw [hp] at ht; simp [pyTruthy] at ht
        | bool b => rw [hp] at h; simp at h
        | num q => rw [hp] at h; simp at h
        | str s => rw [hp] at h; simp at h
        | obj o => rw [hp] at h; simp at h
      · rw [if_neg ht] at h ⊢
        rfl
  | null => simp [dexShapeOk] at h
  | bool b => simp [dexShapeOk] at h
  | num q => simp [dexShapeOk] at h
  | str s => simp [dexShapeOk] at h
  | arr xs => simp [dexShapeOk] at h

lemma gecko_ok_of_shape (token_id : Option String) (token_name : String)
    (contract_address : Option String) (chain : String) (data : Json)
    (h : geckoShapeOk data = true) :
    exceptIsOk (get_pool_address_from_geckoterminal token_id token_name
      contract_address chain (some data)) = true := by
  cases data with
  | obj kvs =>
      simp only [geckoShapeOk] at h
      unfold get_pool_address_from_geckoterminal
      simp only [pyGetD, except_ok_bind]
      by_cases ht : pyTruthy ((jLookup kvs "data").getD (Json.arr [])) = true
      · rw [if_pos ht] at h ⊢
        cases hp : (jLookup kvs "data").getD (Json.arr []) with
        | arr xs =>
            rw [hp] at h ht
            cases xs with
            | nil => simp [pyTruthy] at ht
            | cons x rest =>
                have hpool : geckoPoolShapeOk x = true := h
                simp only [pyIndex0, except_ok_bind]
                cases x with
                | obj pk =>
                    simp only [pyGetD, except_ok_bind]
                    simp only [geckoPoolShapeOk] at hpool
                    have hattr : ∃ ak,
                        (jLookup pk "attributes").getD (Json.obj []) =
                          Json.obj ak := by
                      cases hl : jLookup pk "attributes" with
                      | none => exact ⟨[], rfl⟩
                      | some v =>
                          cases v with
                          | obj a => exact ⟨a, rfl⟩
                          | null => rw [hl] at hpool; simp at hpool
                          | bool b => rw [hl] at hpool; simp at hpool
                          | num q => rw [hl] at hpool; simp at hpool
                          | str s => rw [hl] at hpool; simp at hpool
                          | arr a => rw [hl] at hpool; simp at hpool
                    obtain ⟨ak, hak⟩ := hattr
                    rw [hak]
                    rw [hak] at hpool
                    have hpool2 :
                        (match (jLookup ak "price_change_percentage").getD
                            (Json.obj []) with
                          | Json.obj _ => true
                          | _ => false) = true := by
                      simpa using hpool
                    simp only [pyGet, pyGetD, except_ok_bind]
                    have hpcp : ∃ ck,
                        (jLookup ak "price_change_percentage").getD
                          (Json.obj []) = Json.obj ck := by
                      cases hl : jLookup ak "price_change_percentage" with
                      | none => exact ⟨[], rfl⟩
                      | some v =>
                          cases v with
                          | obj a => exact ⟨a, rfl⟩
                          | null => rw [hl] at hpool2; simp at hpool2
                          | bool b => rw [hl] at hpool2; simp at hpool2
                          | num q => rw [hl] at hpool2; simp at hpool2
                          | str s => rw [hl] at hpool2; simp at hpool2
                          | arr a => rw [hl] at hpool2; simp at hpool2
                    obtain ⟨ck, hck⟩ := hpcp
                    rw [hck]
                    simp only [pyGet, except_ok_bind]
                    rfl
                | null => simp [geckoPoolShapeOk] at hpool
                | bool b => simp [geckoPoolShapeOk] at hpool
                | num q => simp [geckoPoolShapeOk] at hpool
                | str s => simp [geckoPoolShapeOk] at hpool
                | arr a => simp [geckoPoolShapeOk] at hpool
        | null => rw [hp] at ht; simp [pyTruthy] at ht
        | bool b => rw [hp] at h; simp at h
        | num q => rw [hp] at h; simp at h
        | str s => rw [hp] at h; simp at h
        | obj o => rw [hp] at h; simp at h
      · rw [if_neg ht] at h ⊢
        rfl
  | null => simp [geckoShapeOk] at h
  | bool b => simp [geckoShapeOk] at h
  | num q => simp [geckoShapeOk] at h
  | str s => simp [geckoShapeOk] at h
  | arr xs => simp [geckoShapeOk] at h

set_option maxRecDepth 8000 in
/-- Claim C9 counterexample: the source clients catch only
`requests.exceptions.RequestException`, so well-formed responses can make
them raise uncaught exceptions that escape the fetch boundary: a
top-level JSON array body raises `AttributeError` in the primary client,
a top-level JSON string body raises `AttributeError` in the secondary
client, a dict-valued `data` field raises `KeyError` at `pools[0]` in the
secondary client, and a huge integral `priceUsd` raises `OverflowError`
at `float(current_price)` in the primary client (only `ValueError` and
`TypeError` are caught there). -/
theorem claim_C9_counterexample :
    fetch_price_data_from_dexscreener none "Unknown" none "ethereum"
        (some (Json.arr [])) = Except.error PyErr.attributeError
    ∧ get_pool_address_from_geckoterminal none "Unknown" none "ethereum"
        (some (Json.str "oops")) = Except.error PyErr.attributeError
    ∧ get_pool_address_from_geckoterminal none "Unknown" none "ethereum"
        (some (Json.obj [("data", Json.obj [("pools", Json.null)])])) =
      Except.error PyErr.keyError
    ∧ fetch_price_data_from_dexscreener none "Unknown" none "ethereum"
        (some (Json.obj [("pairs",
          Json.arr [Json.obj [("priceUsd",
            Json.num (((2 ^ 1024 : Nat) : Int) : Rat))]])])) =
      Except.error PyErr.overflowError :=
  ⟨rfl, rfl, rfl, rfl⟩

/-- Claim C9 (amended): each source client returns its outcome as a value
— with no exception escaping its boundary — for every transport-level
failure (the `except requests.exceptions.RequestException` branch yields a
`None` outcome) and for every response whose decoded body satisfies the
client's shape-and-range conditions (`dexShapeOk` / `geckoShapeOk`:
dict/list shapes for the duck-typed field accesses, and for the primary
client a price field whose `float` validation does not overflow).  These
conditions are sufficient, not necessary: outside them the client may
still return a value, or may let an uncaught exception (AttributeError,
TypeError, KeyError, or OverflowError) escape, as the counterexample
shows at four concrete responses. -/
theorem claim_C9 (token_id : Option String) (token_name : String)
    (contract_address : Option String) (chain : String) (data data2 : Json) :
    exceptIsOk (fetch_price_data_from_dexscreener token_id token_name
        contract_address chain none) = true
    ∧ exceptIsOk (get_pool_address_from_geckoterminal token_id token_name
        contract_address chain none) = true
    ∧ (dexShapeOk data = true →
        exceptIsOk (fetch_price_data_from_dexscreener token_id token_name
          contract_address chain (some data)) = true)
    ∧ (geckoShapeOk data2 = true →
        exceptIsOk (get_pool_address_from_geckoterminal token_id token_name
          contract_address chain (some data2)) = true) := by
  refine ⟨rfl, rfl, ?_, ?_⟩
  · intro h
    exact dexParseResponse_ok_of_shape chain data h
  · intro h
    exact gecko_ok_of_shape token_id token_name contract_address chain data2 h

theorem claim_C9_witness :
    exceptIsOk (fetch_price_data_from_dexscreener none "Unknown" none
        "ethereum"
        (some (Json.obj [("pairs",
          Json.arr [Json.obj [("chainId", Json.str "solana"),
            ("priceUsd", Json.str "1.5")]])]))) = true
    ∧ exceptIsOk (get_pool_address_from_geckoterminal none "Unknown" none
        "ethereum"
        (some (Json.obj [("data",
          Json.arr [Json.obj [("attributes",
            Json.obj [("base_token_price_usd", Json.str "2.5")])]])]))) =
        true :=
  ⟨(claim_C9 none "Unknown" none "ethereum"
      (Json.obj [("pairs",
        Json.arr [Json.obj [("chainId", Json.str "solana"),
          ("priceUsd", Json.str "1.5")]])])
      Json.null).2.2.1 rfl,
    (claim_C9 none "Unknown" none "ethereum" Json.null
      (Json.obj [("data",
        Json.arr [Json.obj [("attributes",
          Json.obj [("base_token_price_usd", Json.str "2.5")])]])])).2.2.2
      rfl⟩
